import Mathlib

/-
Verification of the itinerary-generation pipeline of the ai-trip-planner
repository. JavaScript numbers are embedded as exact rationals, calendar
dates as whole-day numbers (days since the Unix epoch, matching
Date.parse of a YYYY-MM-DD string divided by 86400000 ms), and the
process-global Map stores as functions from keys to optional values.
-/

namespace TripPlanner

/-- A validated trip request, the shape produced by validateTripRequest in
lib/validation and consumed by the route handlers and the mock generator. -/
structure TripRequest where
  origin : String
  destination : String
  start_date : Int
  end_date : Int
  budget_total : ℚ
  currency : String
  num_travelers : Nat
  preferred_themes : Option (List String)
  deriving Repr, DecidableEq

/-- One activity entry of a day, as built by generateDays in
app/api/v1/itineraries/generate/route.ts. -/
structure Activity where
  time : String
  activity : String
  location : String
  cost : Int
  description : String
  deriving Repr, DecidableEq

/-- One day of an itinerary: 1-based index, calendar date, activities. -/
structure Day where
  day : Nat
  date : Int
  activities : List Activity
  deriving Repr, DecidableEq

/-- The accommodation block of a mock itinerary. -/
structure Accommodation where
  name : String
  type : String
  pricePerNight : Int
  rating : ℚ
  amenities : List String
  deriving Repr, DecidableEq

/-- The transportation block of a mock itinerary. -/
structure Transportation where
  type : String
  cost : Int
  details : String
  deriving Repr, DecidableEq

/-- A full itinerary object of the mock generator. -/
structure Itinerary where
  id : String
  title : String
  description : String
  totalCost : Int
  days : List Day
  accommodation : Accommodation
  transportation : Transportation
  deriving Repr, DecidableEq

/-- The top-level payload shape: an object with an itineraries list. -/
structure ItineraryBundle where
  itineraries : List Itinerary
  deriving Repr, DecidableEq

/-- Milliseconds per day, the divisor 1000 * 60 * 60 * 24 of the source. -/
def msPerDay : ℚ := 1000 * 60 * 60 * 24

/-- Epoch milliseconds of a calendar date given as a whole-day number. -/
def dateToMs (d : Int) : ℚ := (d : ℚ) * msPerDay

/-- Day count of the mock generator:
Math.ceil((endDate.getTime() - startDate.getTime()) / (1000*60*60*24)) + 1. -/
def tripDays (tr : TripRequest) : Int :=
  Int.ceil ((dateToMs tr.end_date - dateToMs tr.start_date) / msPerDay) + 1

/-- budgetPerDay = Math.floor(budget_total / days). -/
def budgetPerDay (tr : TripRequest) : Int :=
  Int.floor (tr.budget_total / (tripDays tr : ℚ))

/-- themes = preferred_themes || ["heritage"]: the fallback fires when the
field is absent (an empty list is truthy in JavaScript and is kept). -/
def themes (tr : TripRequest) : List String :=
  tr.preferred_themes.getD ["heritage"]

/-- themes[0]; an out-of-range JavaScript index interpolates as the text
undefined inside a template literal. -/
def theme0 (tr : TripRequest) : String := (themes tr).getD 0 "undefined"

/-- themes[1] || themes[0]: the second theme, falling back to the first when
the second is absent or the empty string (both falsy). -/
def theme1 (tr : TripRequest) : String :=
  match (themes tr).get? 1 with
  | some t => if t = "" then theme0 tr else t
  | none => theme0 tr

/-- The daily budget of one itinerary variant:
Math.floor(budgetPerDay * budgetMultiplier). -/
def dailyBudget (tr : TripRequest) (budgetMultiplier : ℚ) : Int :=
  Int.floor ((budgetPerDay tr : ℚ) * budgetMultiplier)

/-- generateDays of the mock generator: one Day per index 0 ≤ i < days, with
1-based day numbers, a date advanced i days from the start date, and four
templated activities costing floor(0.3), floor(0.2), floor(0.3), floor(0.2)
of the variant daily budget. -/
def generateDays (tr : TripRequest) (budgetMultiplier : ℚ) (style : String) : List Day :=
  let db := dailyBudget tr budgetMultiplier
  (List.range (tripDays tr).toNat).map fun i =>
    { day := i + 1
      date := tr.start_date + i
      activities := [
        { time := "09:00"
          activity := "Morning " ++ theme0 tr ++ " exploration"
          location := tr.destination ++ " City Center"
          cost := Int.floor ((db : ℚ) * (0.3 : ℚ))
          description := "Start your day exploring the " ++ style ++
            " attractions of " ++ tr.destination },
        { time := "13:00"
          activity := "Local cuisine lunch"
          location := "Traditional restaurant in " ++ tr.destination
          cost := Int.floor ((db : ℚ) * (0.2 : ℚ))
          description := "Enjoy authentic local dishes and specialties" },
        { time := "15:00"
          activity := "Afternoon " ++ theme1 tr ++ " activity"
          location := "Popular " ++ tr.destination ++ " landmark"
          cost := Int.floor ((db : ℚ) * (0.3 : ℚ))
          description := "Continue exploring based on your interests" },
        { time := "19:00"
          activity := "Evening leisure"
          location := tr.destination ++ " entertainment district"
          cost := Int.floor ((db : ℚ) * (0.2 : ℚ))
          description := "Relax and enjoy the evening atmosphere" } ] }

/-- generateMockItineraries of
app/api/v1/itineraries/generate/route.ts (the identical copy also appears in
the trips route file): three fixed itinerary variants with ids budget,
balanced and luxury, cost multipliers 0.7, 0.9 and 1.2. -/
def generateMockItineraries (tr : TripRequest) : ItineraryBundle :=
  { itineraries := [
      { id := "budget"
        title := "Budget Explorer"
        description := "Discover " ++ tr.destination ++
          " without breaking the bank. This itinerary focuses on free attractions, local experiences, and budget-friendly accommodations."
        totalCost := Int.floor (tr.budget_total * (0.7 : ℚ))
        days := generateDays tr (0.7 : ℚ) "budget-friendly"
        accommodation := {
          name := "Budget Hotel " ++ tr.destination
          type := "Budget Hotel"
          pricePerNight := Int.floor ((budgetPerDay tr : ℚ) * (0.3 : ℚ))
          rating := (3.5 : ℚ)
          amenities := ["Free WiFi", "Breakfast", "24/7 Reception"] }
        transportation := {
          type := "Public Transport"
          cost := Int.floor (tr.budget_total * (0.1 : ℚ))
          details := "Local buses and trains" } },
      { id := "balanced"
        title := "Balanced Journey"
        description := "The perfect mix of comfort and adventure. Experience " ++
          tr.destination ++ " with a good balance of must-see attractions and local experiences."
        totalCost := Int.floor (tr.budget_total * (0.9 : ℚ))
        days := generateDays tr (0.9 : ℚ) "balanced"
        accommodation := {
          name := "Mid-Range Hotel " ++ tr.destination
          type := "3-Star Hotel"
          pricePerNight := Int.floor ((budgetPerDay tr : ℚ) * (0.4 : ℚ))
          rating := (4.0 : ℚ)
          amenities := ["Free WiFi", "Breakfast", "Gym", "Pool"] }
        transportation := {
          type := "Mixed Transport"
          cost := Int.floor (tr.budget_total * (0.15 : ℚ))
          details := "Combination of public transport and taxis" } },
      { id := "luxury"
        title := "Luxury Experience"
        description := "Indulge in the finest " ++ tr.destination ++
          " has to offer. Premium accommodations, exclusive experiences, and personalized service."
        totalCost := Int.floor (tr.budget_total * (1.2 : ℚ))
        days := generateDays tr (1.2 : ℚ) "luxury"
        accommodation := {
          name := "Luxury Resort " ++ tr.destination
          type := "5-Star Resort"
          pricePerNight := Int.floor ((budgetPerDay tr : ℚ) * (0.6 : ℚ))
          rating := (4.8 : ℚ)
          amenities := ["Spa", "Fine Dining", "Concierge", "Premium WiFi", "Pool", "Gym"] }
        transportation := {
          type := "Private Transport"
          cost := Int.floor (tr.budget_total * (0.2 : ℚ))
          details := "Private car with driver" } } ] }

/-- The trip request of the end-to-end example of the spec: NYC to Paris,
2024-06-01 (epoch day 19875) to 2024-06-05 (epoch day 19879), 2000 USD,
2 travelers, heritage theme. -/
def nycParisRequest : TripRequest :=
  { origin := "NYC"
    destination := "Paris"
    start_date := 19875
    end_date := 19879
    budget_total := 2000
    currency := "USD"
    num_travelers := 2
    preferred_themes := some ["heritage"] }

/-- A trip request with a one-day span and a budget of 10, an input on which
the floored activity costs of a day do not add back up to the daily budget. -/
def oneDayRequest : TripRequest :=
  { origin := "A"
    destination := "B"
    start_date := 0
    end_date := 0
    budget_total := 10
    currency := "USD"
    num_travelers := 1
    preferred_themes := some ["heritage"] }

/-- Sum of the activity costs of one day. -/
def dayCostSum (d : Day) : Int := (d.activities.map Activity.cost).sum

/-- Character-wise lowercasing, the behavior of toLowerCase on the ASCII
strings compared or embedded by this code base. -/
def toLowerStr (s : String) : String := ⟨s.data.map Char.toLower⟩

/-! ## The AI orchestrator

The AI orchestrator is the third document concatenated into
components/itinerary-detail.tsx (lines 697-1209): it exports
generateItinerary, attemptGeneration, generateMockItinerary,
generateMockDays and calculateDuration. The external model call, the
prompt builder and the schema validator (prompt-builder and
schema-validator modules are not under src/) are abstracted into the
attempt function and the prompt string; uuidv4, the clock and Math.random
are nondeterministic and enter as the oracles uuid, now and rand. -/

/-- A cost amount with its currency, the shape of total_cost and the cost
fields of the orchestrator payload. -/
structure Money where
  amount : Int
  currency : String
  deriving Repr, DecidableEq, Inhabited

/-- Geographic coordinates of a mock location. -/
structure Coordinates where
  lat : ℚ
  lng : ℚ
  deriving Repr, DecidableEq, Inhabited

/-- A named location with coordinates. -/
structure OrchLocation where
  name : String
  coordinates : Coordinates
  deriving Repr, DecidableEq, Inhabited

/-- Booking information attached to mock activities and accommodations. -/
structure BookingInfo where
  bookable : Bool
  provider : String
  booking_url : String
  deriving Repr, DecidableEq, Inhabited

/-- An activity of an orchestrator mock day. -/
structure OrchActivity where
  name : String
  type : String
  duration : String
  cost : Money
  location : OrchLocation
  booking_info : BookingInfo
  deriving Repr, DecidableEq, Inhabited

/-- The accommodation block of an orchestrator mock day. -/
structure OrchAccommodation where
  name : String
  type : String
  cost : Money
  location : OrchLocation
  booking_info : BookingInfo
  deriving Repr, DecidableEq, Inhabited

/-- A meal entry of an orchestrator mock day. -/
structure Meal where
  type : String
  name : String
  cost : Money
  deriving Repr, DecidableEq, Inhabited

/-- The transportation block of an orchestrator mock day. -/
structure OrchTransportation where
  type : String
  cost : Money
  deriving Repr, DecidableEq, Inhabited

/-- One day of an orchestrator itinerary. -/
structure OrchDay where
  day : Nat
  date : Int
  activities : List OrchActivity
  accommodation : OrchAccommodation
  meals : List Meal
  transportation : OrchTransportation
  daily_cost : Money
  deriving Repr, DecidableEq, Inhabited

/-- One itinerary of the orchestrator payload: uuid-suffixed id, type tag
(balanced, budget or premium), total cost and days. -/
structure OrchItinerary where
  id : String
  type : String
  title : String
  description : String
  total_cost : Money
  days : List OrchDay
  highlights : List String
  best_for : List String
  deriving Repr, DecidableEq, Inhabited

/-- Generation metadata attached to an orchestrator payload. The fields
processing_time_ms and api_source appear only on the AI success path, and
itinerary_type only when the source object carries it, hence the options. -/
structure Metadata where
  generated_at : String
  confidence_score : ℚ
  request_id : String
  model_version : String
  itinerary_type : Option String
  processing_time_ms : Option Int
  api_source : Option String
  deriving Repr, DecidableEq, Inhabited

/-- The top-level orchestrator payload: itineraries plus optional metadata
(a model response validated by the schema may or may not carry one). -/
structure OrchBundle where
  itineraries : List OrchItinerary
  metadata : Option Metadata
  deriving Repr, DecidableEq, Inhabited

/-- GenerateItineraryResult interface of the orchestrator
(itinerary-detail.tsx lines 714-718): success flag, optional payload,
optional error string. -/
structure GenerateItineraryResult where
  success : Bool
  data : Option OrchBundle
  error : Option String
  deriving Repr, DecidableEq, Inhabited

/-- calculateDuration (itinerary-detail.tsx lines 1203-1209):
Math.max(1, Math.ceil(|end - start| / 86400000)), at least one day. -/
def calculateDuration (startDate endDate : Int) : Int :=
  max 1 (Int.ceil (|dateToMs endDate - dateToMs startDate| / msPerDay))

/-- generateMockDays of the orchestrator (itinerary-detail.tsx lines
1076-1201): one day per index below the duration, with accommodation share
0.4 (experience), 0.3 (budget) or 0.35 (otherwise) of the daily budget,
activity budget = daily budget minus accommodation minus a 20 percent
meals-and-transport share, and two activities costing floor(0.6) and
floor(0.4) of the activity budget. Each Math.random() sample enters through
the oracle rand (day index, sample index), in source order: the two
activity coordinate pairs then the accommodation pair. -/
def generateMockDays (tr : TripRequest) (duration : Int) (dailyBudget : ℚ)
    (type : String) (rand : Nat → Nat → ℚ) : List OrchDay :=
  (List.range duration.toNat).map fun i =>
    let accommodationCost : ℚ :=
      if type = "experience" then dailyBudget * (0.4 : ℚ)
      else if type = "budget" then dailyBudget * (0.3 : ℚ)
      else dailyBudget * (0.35 : ℚ)
    let activityCost : ℚ := dailyBudget - accommodationCost - dailyBudget * (0.2 : ℚ)
    let theme := (tr.preferred_themes.getD []).getD 0 ""
    let themeName := if theme = "" then "cultural" else theme
    { day := i + 1
      date := tr.start_date + i
      activities := [
        { name := "Explore " ++ tr.destination ++ " City Center"
          type := "sightseeing"
          duration := "3 hours"
          cost := { amount := Int.floor (activityCost * (0.6 : ℚ)), currency := tr.currency }
          location := {
            name := tr.destination ++ " City Center"
            coordinates := {
              lat := (40.7128 : ℚ) + (rand i 0 - (0.5 : ℚ)) * (0.1 : ℚ)
              lng := (-74.006 : ℚ) + (rand i 1 - (0.5 : ℚ)) * (0.1 : ℚ) } }
          booking_info := {
            bookable := true
            provider := "EaseMyTrip"
            booking_url := "https://easemytrip.com/activities/" ++ toLowerStr tr.destination } },
        { name := "Local " ++ themeName ++ " Experience"
          type := themeName
          duration := "2 hours"
          cost := { amount := Int.floor (activityCost * (0.4 : ℚ)), currency := tr.currency }
          location := {
            name := tr.destination ++ " Cultural District"
            coordinates := {
              lat := (40.7128 : ℚ) + (rand i 2 - (0.5 : ℚ)) * (0.1 : ℚ)
              lng := (-74.006 : ℚ) + (rand i 3 - (0.5 : ℚ)) * (0.1 : ℚ) } }
          booking_info := {
            bookable := true
            provider := "EaseMyTrip"
            booking_url := "https://easemytrip.com/experiences/" ++ toLowerStr tr.destination } } ]
      accommodation := {
        name :=
          if type = "experience" then "Luxury Hotel " ++ tr.destination
          else if type = "budget" then "Budget Inn " ++ tr.destination
          else "Comfort Hotel " ++ tr.destination
        type := if type = "experience" then "resort" else if type = "budget" then "hostel" else "hotel"
        cost := { amount := Int.floor accommodationCost, currency := tr.currency }
        location := {
          name := tr.destination ++ " Downtown"
          coordinates := {
            lat := (40.7128 : ℚ) + (rand i 4 - (0.5 : ℚ)) * (0.05 : ℚ)
            lng := (-74.006 : ℚ) + (rand i 5 - (0.5 : ℚ)) * (0.05 : ℚ) } }
        booking_info := {
          bookable := true
          provider := "EaseMyTrip"
          booking_url := "https://easemytrip.com/hotels/" ++ toLowerStr tr.destination } }
      meals := [
        { type := "breakfast"
          name := "Local Breakfast Spot"
          cost := { amount := Int.floor (dailyBudget * (0.05 : ℚ)), currency := tr.currency } },
        { type := "lunch"
          name := "Traditional Restaurant"
          cost := { amount := Int.floor (dailyBudget * (0.08 : ℚ)), currency := tr.currency } },
        { type := "dinner"
          name := if type = "experience" then "Fine Dining Restaurant" else "Local Eatery"
          cost := {
            amount := Int.floor (dailyBudget * (if type = "experience" then (0.15 : ℚ) else (0.07 : ℚ)))
            currency := tr.currency } } ]
      transportation := {
        type := if type = "experience" then "taxi" else if type = "budget" then "bus" else "train"
        cost := { amount := Int.floor (dailyBudget * (0.05 : ℚ)), currency := tr.currency } }
      daily_cost := { amount := Int.floor dailyBudget, currency := tr.currency } }

/-- The mock itinerary object of generateMockItinerary (itinerary-detail.tsx
lines 971-1074): duration and floored per-day budget, three candidate
itineraries in source order balanced, budget, premium with cost multipliers
0.9, 0.7 and 1.2 and uuid-suffixed ids; a requested type selects the
matching candidates, falling back to the balanced one when nothing matches;
no requested type keeps all three. Metadata carries confidence 0.75 and the
mock model version. The uuid oracle is consumed in evaluation order:
balanced id, budget id, premium id, metadata request id. -/
def mockItineraryBundle (tr : TripRequest) (itineraryType : Option String)
    (uuid : Nat → String) (now : String) (rand : Nat → Nat → ℚ) : OrchBundle :=
  let duration := calculateDuration tr.start_date tr.end_date
  let dailyBudget : Int := Int.floor (tr.budget_total / (duration : ℚ))
  let allItineraries : List OrchItinerary := [
    { id := "balanced_" ++ uuid 0
      type := "balanced"
      title := "Balanced " ++ tr.destination ++ " Adventure"
      description := "A perfect mix of must-see attractions and local experiences in " ++ tr.destination
      total_cost := { amount := Int.floor (tr.budget_total * (0.9 : ℚ)), currency := tr.currency }
      days := generateMockDays tr duration ((dailyBudget : ℚ) * (0.9 : ℚ)) "balanced" rand
      highlights := [
        "Explore the iconic landmarks of " ++ tr.destination,
        "Experience authentic local cuisine",
        "Visit hidden gems recommended by locals",
        "Perfect balance of culture and relaxation" ]
      best_for := ["First-time visitors", "Culture enthusiasts", "Balanced travelers"] },
    { id := "budget_" ++ uuid 1
      type := "budget"
      title := "Budget-Friendly " ++ tr.destination ++ " Explorer"
      description := "Maximum value with smart savings and local gems in " ++ tr.destination
      total_cost := { amount := Int.floor (tr.budget_total * (0.7 : ℚ)), currency := tr.currency }
      days := generateMockDays tr duration ((dailyBudget : ℚ) * (0.7 : ℚ)) "budget" rand
      highlights := [
        "Affordable local transportation options",
        "Budget-friendly accommodations with great reviews",
        "Free walking tours and public attractions",
        "Local street food and markets" ]
      best_for := ["Budget travelers", "Backpackers", "Students"] },
    { id := "premium_" ++ uuid 2
      type := "premium"
      title := "Premium " ++ tr.destination ++ " Experience"
      description := "Luxury experiences and exclusive access in " ++ tr.destination
      total_cost := { amount := Int.floor (tr.budget_total * (1.2 : ℚ)), currency := tr.currency }
      days := generateMockDays tr duration ((dailyBudget : ℚ) * (1.2 : ℚ)) "premium" rand
      highlights := [
        "Luxury accommodations with premium amenities",
        "Private guided tours and exclusive access",
        "Fine dining at renowned restaurants",
        "Premium transportation and comfort" ]
      best_for := ["Luxury travelers", "Special occasions", "Comfort seekers"] } ]
  let selectedItineraries :=
    match itineraryType with
    | some t =>
      let sel := allItineraries.filter (fun it => it.type == t)
      if sel.length = 0 then allItineraries.filter (fun it => it.type == "balanced") else sel
    | none => allItineraries
  { itineraries := selectedItineraries
    metadata := some {
      generated_at := now
      confidence_score := (0.75 : ℚ)
      request_id := uuid 3
      model_version := "mock-generator-v1"
      itinerary_type := some (match itineraryType with
        | some t => if t = "" then "all_types" else t
        | none => "all_types")
      processing_time_ms := none
      api_source := none } }

/-- generateMockItinerary (itinerary-detail.tsx lines 971-1074): always
succeeds, returning the mock bundle with no error. -/
def generateMockItinerary (tr : TripRequest) (itineraryType : Option String)
    (uuid : Nat → String) (now : String) (rand : Nat → Nat → ℚ) :
    GenerateItineraryResult :=
  { success := true
    data := some (mockItineraryBundle tr itineraryType uuid now rand)
    error := none }

/-- Fix-up instruction appended to the prompt for the retry attempt
(itinerary-detail.tsx line 790). -/
def fixupInstruction : String :=
  "\n\nIMPORTANT: The previous response had schema validation errors. Please ensure your JSON response strictly follows the provided schema format. Double-check all required fields and data types. Return ONLY valid JSON without any markdown formatting."

/-- The result after the bounded retry (itinerary-detail.tsx lines
778-799): attempt at temperature 0.7, then once more at 0.3 with the
fix-up prompt only when the first attempt failed exactly with
schema_validation_failed. -/
def retryResult (prompt : String)
    (attempt : String → ℚ → GenerateItineraryResult) : GenerateItineraryResult :=
  let result1 := attempt prompt (0.7 : ℚ)
  if result1.success = false ∧ result1.error = some "schema_validation_failed" then
    attempt (prompt ++ fixupInstruction) (0.3 : ℚ)
  else result1

/-- Metadata attachment of the AI success path (itinerary-detail.tsx lines
817-828): spread of the original metadata, then the generation stamp,
request id, model version, confidence (kept unless falsy, else 0.85),
processing time and api source. -/
def attachAiMetadata (d : OrchBundle) (uuid : Nat → String) (now : String)
    (processingTimeMs : Int) : OrchBundle :=
  let conf : ℚ :=
    match d.metadata with
    | some md => if md.confidence_score = 0 then (0.85 : ℚ) else md.confidence_score
    | none => (0.85 : ℚ)
  { d with metadata := some {
      generated_at := now
      confidence_score := conf
      request_id := uuid 0
      model_version := "gemini-1.5-pro"
      itinerary_type := d.metadata.bind Metadata.itinerary_type
      processing_time_ms := some processingTimeMs
      api_source := some "gemini-api" } }

/-- generateItinerary of the orchestrator (itinerary-detail.tsx lines
722-855): with no valid API key (missing, or not starting with AIza,
summarized by hasValidKey) fall back to the mock generator; otherwise run
the bounded retry; fall back to the mock generator when the final attempt
failed or delivered no data (a missing payload raises inside the try block
and the catch-all also lands in the mock fallback); on success attach the
generation metadata. Every path returns success = true. -/
def generateItinerary (tr : TripRequest) (itineraryType : Option String)
    (hasValidKey : Bool) (prompt : String)
    (attempt : String → ℚ → GenerateItineraryResult)
    (uuid : Nat → String) (now : String) (rand : Nat → Nat → ℚ)
    (processingTimeMs : Int) : GenerateItineraryResult :=
  if hasValidKey = false then
    generateMockItinerary tr itineraryType uuid now rand
  else
    let result := retryResult prompt attempt
    if result.success = false then
      generateMockItinerary tr itineraryType uuid now rand
    else
      match result.data with
      | none => generateMockItinerary tr itineraryType uuid now rand
      | some d =>
        { success := true
          data := some (attachAiMetadata d uuid now processingTimeMs)
          error := none }

/-! ## The route handlers of the trips and per-trip itinerary endpoints -/

/-- The orchestrator result shape as consumed opaquely by the per-trip
route handler: success flag, optional payload, optional error string,
mirroring the GenerateItineraryResult interface; the payload is kept at
the route-level bundle type, which the handler never inspects. -/
structure GenerationResult where
  success : Bool
  data : Option ItineraryBundle
  error : Option String
  deriving Repr, DecidableEq

/-- A stored trip record, as built by the trip-creation POST handler. -/
structure Trip where
  id : String
  tripRequest : TripRequest
  createdAt : String
  status : String
  deriving Repr, DecidableEq

/-- A stored per-trip itinerary record, as built by the per-trip GET
handler: the spread of generationResult.data is kept as an optional data
field (a spread of undefined adds no fields). -/
structure StoredItinerary where
  id : String
  tripId : String
  type : String
  data : Option ItineraryBundle
  tripRequest : TripRequest
  createdAt : String
  deriving Repr, DecidableEq

/-- The two process-global Map stores, modelled as partial functions. -/
structure ServerState where
  mockTrips : String → Option Trip
  mockItineraries : String → Option StoredItinerary

/-- Map.prototype.set: point update of the store. -/
def mapSet {α : Type} (m : String → Option α) (k : String) (v : α) :
    String → Option α :=
  fun q => if q = k then some v else m q

/-- Map.prototype.delete: point removal from the store. -/
def mapDelete {α : Type} (m : String → Option α) (k : String) :
    String → Option α :=
  fun q => if q = k then none else m q

/-- Response of the per-trip itinerary GET and POST handlers. -/
inductive ItinResponse where
  | err (httpStatus : Nat) (message : String)
  | errGen (httpStatus : Nat) (message : String) (details : Option String)
  | ok (body : StoredItinerary)
  deriving Repr, DecidableEq

/-- Outcome of one per-trip itinerary handler call: the HTTP response, the
store state afterwards, and whether generateItinerary was invoked. -/
structure HandlerOutcome where
  response : ItinResponse
  state : ServerState
  generationInvoked : Bool

/-- The valid itinerary types of the per-trip GET handler. -/
def validTypes : List String := ["budget", "balanced", "premium"]

/-- The per-trip itinerary GET handler: empty-parameter check, case
insensitive type validation, cache lookup under the raw key
tripId_itineraryType, trip lookup, generation via the imported
generateItinerary (passed here as the function gen), store and respond. -/
def itineraryGET (st : ServerState) (tripId itineraryType : String)
    (gen : TripRequest → String → GenerationResult) (now : String) :
    HandlerOutcome :=
  if tripId = "" ∨ itineraryType = "" then
    { response := .err 400 "Trip ID and itinerary type are required"
      state := st, generationInvoked := false }
  else if validTypes.contains (toLowerStr itineraryType) = false then
    { response := .err 400 "Invalid itinerary type. Must be one of: budget, balanced, premium"
      state := st, generationInvoked := false }
  else
    let itineraryId := tripId ++ "_" ++ itineraryType
    match st.mockItineraries itineraryId with
    | some existing =>
      { response := .ok existing, state := st, generationInvoked := false }
    | none =>
      match st.mockTrips tripId with
      | none => { response := .err 404 "Trip not found", state := st, generationInvoked := false }
      | some trip =>
        let res := gen trip.tripRequest itineraryType
        if res.success = false then
          { response := .errGen 500 "Failed to generate itinerary" res.error
            state := st, generationInvoked := true }
        else
          let itineraryData : StoredItinerary :=
            { id := itineraryId
              tripId := tripId
              type := itineraryType
              data := res.data
              tripRequest := trip.tripRequest
              createdAt := now }
          { response := .ok itineraryData
            state := { st with
              mockItineraries := mapSet st.mockItineraries itineraryId itineraryData }
            generationInvoked := true }

/-- The per-trip itinerary POST handler: delete the cached entry for the raw
key, then delegate to the GET handler to generate a fresh one. -/
def itineraryPOST (st : ServerState) (tripId itineraryType : String)
    (gen : TripRequest → String → GenerationResult) (now : String) :
    HandlerOutcome :=
  let itineraryId := tripId ++ "_" ++ itineraryType
  itineraryGET
    { st with mockItineraries := mapDelete st.mockItineraries itineraryId }
    tripId itineraryType gen now

/-- A field-level validation error of the trip request validator
(field name and reason, spec section 4.1). -/
structure FieldError where
  field : String
  reason : String
  deriving Repr, DecidableEq

/-- Modelled from the spec: the result shape of validateTripRequest of
lib/validation (not among the provided sources): a well-typed TripRequest or
a list of field-level errors. The handlers below only inspect this shape. -/
inductive ValidationResult where
  | ok (data : TripRequest)
  | failed (errors : List FieldError)

/-- Response of the trip-creation POST handler. -/
inductive TripsPostResponse where
  | invalid (httpStatus : Nat) (error : String) (details : List FieldError)
  | created (httpStatus : Nat) (id : String) (status : String) (message : String)
  deriving Repr, DecidableEq

/-- The trip-creation POST handler: on validation failure respond 400 with
the validator errors and leave the stores untouched; on success store a
basic trip record (no itinerary is generated by this handler). The
validation result of the parsed body, the fresh trip id and the timestamp
are inputs. -/
def tripsPOST (st : ServerState) (vres : ValidationResult) (freshId : String)
    (now : String) : TripsPostResponse × ServerState :=
  match vres with
  | .failed errs => (.invalid 400 "Invalid request data" errs, st)
  | .ok tr =>
    let tripData : Trip :=
      { id := freshId, tripRequest := tr, createdAt := now, status := "created" }
    (.created 200 freshId "success" "Trip created successfully",
     { st with mockTrips := mapSet st.mockTrips freshId tripData })

/-- A sample stored trip used as concrete input to the handler theorems. -/
def demoTrip : Trip :=
  { id := "t1"
    tripRequest := nycParisRequest
    createdAt := "t0"
    status := "created" }

/-- A server state holding one trip and no cached itineraries. -/
def demoState : ServerState :=
  { mockTrips := fun k => if k = "t1" then some demoTrip else none
    mockItineraries := fun _ => none }

/-- A stub generation function standing in for the imported orchestrator in
concrete handler runs: it always succeeds with an empty bundle. -/
def demoGen : TripRequest → String → GenerationResult :=
  fun _ _ => { success := true, data := some { itineraries := [] }, error := none }

/-- The stored itinerary the per-trip GET handler builds on demoState for
trip t1 and type budget at timestamp now. -/
def demoBody : StoredItinerary :=
  { id := "t1_budget"
    tripId := "t1"
    type := "budget"
    data := some { itineraries := [] }
    tripRequest := nycParisRequest
    createdAt := "now" }

/-- A server state in which the t1 budget itinerary is already cached. -/
def cachedState : ServerState :=
  { mockTrips := fun k => if k = "t1" then some demoTrip else none
    mockItineraries := fun k => if k = "t1_budget" then some demoBody else none }

/-- Outcome of the first case-sensitivity run: GET for type budget. -/
def caseRun1 : HandlerOutcome := itineraryGET demoState "t1" "budget" demoGen "n1"

/-- Outcome of the second case-sensitivity run: GET for type Budget on the
state left by the first run. -/
def caseRun2 : HandlerOutcome := itineraryGET caseRun1.state "t1" "Budget" demoGen "n2"

/-- The single day the mock generateDays builds for oneDayRequest with the
budget multiplier 0.7: daily budget floor(floor(10 / 1) * 0.7) = 7, activity
costs floor(2.1) = 2, floor(1.4) = 1, floor(2.1) = 2, floor(1.4) = 1. -/
def dZero : Day :=
  { day := 1
    date := 0
    activities := [
      { time := "09:00"
        activity := "Morning heritage exploration"
        location := "B City Center"
        cost := 2
        description := "Start your day exploring the budget-friendly attractions of B" },
      { time := "13:00"
        activity := "Local cuisine lunch"
        location := "Traditional restaurant in B"
        cost := 1
        description := "Enjoy authentic local dishes and specialties" },
      { time := "15:00"
        activity := "Afternoon heritage activity"
        location := "Popular B landmark"
        cost := 2
        description := "Continue exploring based on your interests" },
      { time := "19:00"
        activity := "Evening leisure"
        location := "B entertainment district"
        cost := 1
        description := "Relax and enjoy the evening atmosphere" } ] }

/-! ## Helper lemmas -/

/-- The day count reduces to the inclusive whole-day difference: the exact
millisecond quotient is the integer day difference, whose ceiling is itself,
plus one. -/
theorem tripDays_eq (tr : TripRequest) :
    tripDays tr = tr.end_date - tr.start_date + 1 := by
  unfold tripDays dateToMs
  have h : ((tr.end_date : ℚ) * msPerDay - (tr.start_date : ℚ) * msPerDay) / msPerDay
      = ((tr.end_date - tr.start_date : Int) : ℚ) := by
    have hm : (msPerDay : ℚ) ≠ 0 := by norm_num [msPerDay]
    field_simp
    ring
  rw [h, Int.ceil_intCast]

/-- generateDays produces one Day per index below the day count. -/
theorem generateDays_length (tr : TripRequest) (m : ℚ) (style : String) :
    (generateDays tr m style).length = (tripDays tr).toNat := by
  unfold generateDays
  simp

/-- The orchestrator duration reduces to the clamped whole-day difference:
the exact millisecond quotient is the absolute integer day difference,
whose ceiling is itself, clamped to at least one. -/
theorem calculateDuration_eq (s e : Int) :
    calculateDuration s e = max 1 |e - s| := by
  unfold calculateDuration dateToMs
  have hm : (0 : ℚ) < msPerDay := by norm_num [msPerDay]
  have h1 : |(e : ℚ) * msPerDay - (s : ℚ) * msPerDay| / msPerDay
      = ((|e - s| : Int) : ℚ) := by
    rw [show (e : ℚ) * msPerDay - (s : ℚ) * msPerDay = ((e - s : Int) : ℚ) * msPerDay by
        push_cast; ring,
      abs_mul, abs_of_pos hm, mul_div_assoc, div_self hm.ne', mul_one, Int.cast_abs]
  rw [h1, Int.ceil_intCast]

/-- generateMockDays produces one OrchDay per index below the duration. -/
theorem generateMockDays_length (tr : TripRequest) (duration : Int)
    (dailyBudget : ℚ) (type : String) (rand : Nat → Nat → ℚ) :
    (generateMockDays tr duration dailyBudget type rand).length = duration.toNat := by
  unfold generateMockDays
  simp

/-- The default-headed first element of a non-empty list is a member. -/
theorem headI_mem_of_ne_nil {α : Type} [Inhabited α] {l : List α} (h : l ≠ []) :
    l.headI ∈ l := by
  cases l with
  | nil => exact absurd rfl h
  | cons a t => simp

/-! ## Claim theorems -/

/-- C1: for every valid TripRequest, the public generate operation of the
orchestrator returns a result with success = true and a present payload;
every internal failure (missing or malformed credential, failed or
retried-and-failed attempt, missing payload, raised exception) is absorbed
by the mock fallback and a result with success = false is never returned
to the caller. -/
theorem c1_generate_always_succeeds (tr : TripRequest) (itineraryType : Option String)
    (hasValidKey : Bool) (prompt : String)
    (attempt : String → ℚ → GenerateItineraryResult)
    (uuid : Nat → String) (now : String) (rand : Nat → Nat → ℚ)
    (processingTimeMs : Int) :
    (generateItinerary tr itineraryType hasValidKey prompt attempt uuid now rand
      processingTimeMs).success = true ∧
    (generateItinerary tr itineraryType hasValidKey prompt attempt uuid now rand
      processingTimeMs).data.isSome = true := by
  unfold generateItinerary
  by_cases hk : hasValidKey = false
  · simp [hk, generateMockItinerary]
  · by_cases hs : (retryResult prompt attempt).success = false
    · simp [hk, hs, generateMockItinerary]
    · cases hd : (retryResult prompt attempt).data with
      | none => simp [hk, hs, hd, generateMockItinerary]
      | some d => simp [hk, hs, hd]

/-- C2: on the NYC to Paris request of the spec example (2024-06-01 to
2024-06-05, budget 2000) with no valid model credential, the mock path of
the orchestrator returns exactly 3 itineraries carrying total costs 1800
for type balanced, 1400 for type budget and 2400 for type premium, each
having exactly 4 days (calculateDuration gives max(1, ceil(4)) = 4),
whatever the uuid, clock and jitter oracles produce. -/
theorem c2_mock_path_example (prompt : String)
    (attempt : String → ℚ → GenerateItineraryResult)
    (uuid : Nat → String) (now : String) (rand : Nat → Nat → ℚ)
    (processingTimeMs : Int) :
    ((generateItinerary nycParisRequest none false prompt attempt uuid now rand
        processingTimeMs).data.map
      (fun b => b.itineraries.map (fun it => (it.type, it.total_cost.amount)))) =
      some [("balanced", 1800), ("budget", 1400), ("premium", 2400)] ∧
    ((generateItinerary nycParisRequest none false prompt attempt uuid now rand
        processingTimeMs).data.map
      (fun b => b.itineraries.map (fun it => it.days.length))) =
      some [4, 4, 4] := by
  constructor
  · norm_num [generateItinerary, generateMockItinerary, mockItineraryBundle,
      generateMockDays, calculateDuration, nycParisRequest, dateToMs, msPerDay]
  · norm_num [generateItinerary, generateMockItinerary, mockItineraryBundle,
      generateMockDays, calculateDuration, nycParisRequest, dateToMs, msPerDay]
    decide

/-- C3: for every TripRequest with end_date at or after start_date, each
itinerary produced by the orchestrator mock generator has a days list whose
length equals max(1, ceil((end_date - start_date) / 1 day)). -/
theorem c3_mock_day_count (tr : TripRequest) (itineraryType : Option String)
    (uuid : Nat → String) (now : String) (rand : Nat → Nat → ℚ)
    (h : tr.start_date ≤ tr.end_date) (it : OrchItinerary)
    (hit : it ∈ (mockItineraryBundle tr itineraryType uuid now rand).itineraries) :
    (it.days.length : Int) =
      max 1 (Int.ceil ((dateToMs tr.end_date - dateToMs tr.start_date) / msPerDay)) := by
  have hceil : Int.ceil ((dateToMs tr.end_date - dateToMs tr.start_date) / msPerDay)
      = tr.end_date - tr.start_date := by
    have := tripDays_eq tr
    unfold tripDays at this
    omega
  have hdur : calculateDuration tr.start_date tr.end_date
      = max 1 (tr.end_date - tr.start_date) := by
    rw [calculateDuration_eq, abs_of_nonneg (by omega : (0 : Int) ≤ tr.end_date - tr.start_date)]
  have hlen : ∀ db ty,
      (generateMockDays tr (calculateDuration tr.start_date tr.end_date) db ty rand).length
        = (calculateDuration tr.start_date tr.end_date).toNat :=
    fun db ty => generateMockDays_length tr _ db ty rand
  have hgoal : ∀ db ty,
      ((generateMockDays tr (calculateDuration tr.start_date tr.end_date) db ty rand).length : Int)
        = max 1 (Int.ceil ((dateToMs tr.end_date - dateToMs tr.start_date) / msPerDay)) := by
    intro db ty
    rw [hlen db ty, hceil]
    have h0 : (0 : Int) ≤ max 1 (tr.end_date - tr.start_date) :=
      le_trans zero_le_one (le_max_left _ _)
    rw [hdur, Int.toNat_of_nonneg h0]
  rcases itineraryType with _ | t
  · simp only [mockItineraryBundle, List.mem_cons, List.not_mem_nil, or_false] at hit
    rcases hit with rfl | rfl | rfl <;> apply hgoal
  · simp only [mockItineraryBundle] at hit
    split at hit <;>
    · have hmem := (List.mem_filter.mp hit).1
      simp only [List.mem_cons, List.not_mem_nil, or_false] at hmem
      rcases hmem with rfl | rfl | rfl <;> apply hgoal

/-- C3 witness: the day-count theorem applied to the first itinerary the
mock generator builds for the NYC to Paris request with concrete oracles. -/
theorem c3_mock_witness :
    (((mockItineraryBundle nycParisRequest none (fun _ => "u") "now"
        (fun _ _ => 0)).itineraries.headI.days.length : Int)) =
      max 1 (Int.ceil ((dateToMs nycParisRequest.end_date -
        dateToMs nycParisRequest.start_date) / msPerDay)) := by
  have hne : (mockItineraryBundle nycParisRequest none (fun _ => "u") "now"
      (fun _ _ => 0)).itineraries ≠ [] := by
    simp [mockItineraryBundle]
  exact c3_mock_day_count nycParisRequest none (fun _ => "u") "now" (fun _ _ => 0)
    (by decide) _ (headI_mem_of_ne_nil hne)

/-- C4: for every TripRequest the three mock itineraries have totalCost
exactly floor(budget_total * 0.7), floor(budget_total * 0.9) and
floor(budget_total * 1.2), in order (budget, balanced, premium-multiplier
variant). -/
theorem c4_total_cost_multipliers (tr : TripRequest) :
    (generateMockItineraries tr).itineraries.map Itinerary.totalCost =
      [Int.floor (tr.budget_total * (0.7 : ℚ)),
       Int.floor (tr.budget_total * (0.9 : ℚ)),
       Int.floor (tr.budget_total * (1.2 : ℚ))] := rfl

/-- C5 counterexample: on the NYC to Paris request the mock generator emits
an itinerary whose id is luxury, which is not in the claimed set of budget,
balanced and premium, so the claim as stated is false. -/
theorem c5_counterexample :
    ¬ (((generateMockItineraries nycParisRequest).itineraries.map Itinerary.id).all
        (fun s => s == "budget" || s == "balanced" || s == "premium") = true) := by
  decide

/-- C5 amended: the unfiltered mock itinerary set is non-empty with ids
exactly budget, balanced, luxury (the premium-multiplier variant is labeled
luxury); when the per-trip route generates under a type filter, the stored
itinerary has exactly the requested type, which passed the case-insensitive
validation against budget, balanced, premium. -/
theorem c5_amended_types (tr : TripRequest) (st : ServerState)
    (tid ty now : String) (gen : TripRequest → String → GenerationResult) :
    ((generateMockItineraries tr).itineraries ≠ [] ∧
     (generateMockItineraries tr).itineraries.map Itinerary.id
       = ["budget", "balanced", "luxury"]) ∧
    (∀ body, (itineraryGET st tid ty gen now).response = ItinResponse.ok body →
       (itineraryGET st tid ty gen now).generationInvoked = true →
       body.type = ty ∧ validTypes.contains (toLowerStr ty) = true) := by
  constructor
  · exact ⟨by simp [generateMockItineraries], rfl⟩
  · intro body h1 h2
    by_cases hc1 : tid = "" ∨ ty = ""
    · simp [itineraryGET, hc1] at h2
    · by_cases hc2 : validTypes.contains (toLowerStr ty) = false
      · have hnmem : (toLowerStr ty) ∉ validTypes := by simpa using hc2
        simp [itineraryGET, hc1, hnmem] at h2
      · have hc2t : validTypes.contains (toLowerStr ty) = true := by
          cases hcc : validTypes.contains (toLowerStr ty)
          · exact absurd hcc hc2
          · rfl
        have hmem : (toLowerStr ty) ∈ validTypes := by simpa using hc2t
        cases hm : st.mockItineraries (tid ++ "_" ++ ty) with
        | some existing => simp [itineraryGET, hc1, hmem, hm] at h2
        | none =>
          cases htrip : st.mockTrips tid with
          | none => simp [itineraryGET, hc1, hmem, hm, htrip] at h2
          | some trip =>
            by_cases hs : (gen trip.tripRequest ty).success = false
            · simp [itineraryGET, hc1, hmem, hm, htrip, hs] at h1
            · simp [itineraryGET, hc1, hmem, hm, htrip, hs] at h1
              subst h1
              exact ⟨rfl, hc2t⟩

/-- C5 witness: the filtered part of the amended theorem applied to a
concrete state holding one trip and an empty cache, requesting type budget:
the generated stored itinerary has type budget. -/
theorem c5_witness :
    demoBody.type = "budget" ∧ validTypes.contains (toLowerStr "budget") = true :=
  (c5_amended_types nycParisRequest demoState "t1" "budget" "now" demoGen).2 demoBody
    (by
      simp [itineraryGET, demoState, demoGen, demoBody, demoTrip, mapSet, validTypes]
      rw [if_neg (by decide)])
    (by
      simp [itineraryGET, demoState, demoGen, demoTrip, mapSet, validTypes]
      rw [if_neg (by decide)])

/-- C6 counterexample: on the one-day budget-10 request the budget variant
daily budget is 7 but the four floored activity costs sum to 6, so the
claimed equality of the sum with the daily budget share is false. -/
theorem c6_counterexample :
    ¬ ((generateDays oneDayRequest (0.7 : ℚ) "budget-friendly").map dayCostSum =
       List.replicate (generateDays oneDayRequest (0.7 : ℚ) "budget-friendly").length
         (dailyBudget oneDayRequest (0.7 : ℚ))) := by
  intro h
  norm_num [generateDays, dayCostSum, dailyBudget, budgetPerDay, tripDays,
    oneDayRequest, dateToMs, msPerDay, List.replicate, List.range_succ] at h

/-- C6 amended: for every TripRequest, multiplier and style, the activity
costs of each generated day sum to
2 * floor(0.3 * d) + 2 * floor(0.2 * d) where d is the daily budget of the
variant, which is at most d (equality only when the floors are exact). -/
theorem c6_amended_cost_sum (tr : TripRequest) (m : ℚ) (style : String) (d : Day)
    (hd : d ∈ generateDays tr m style) :
    dayCostSum d =
      2 * Int.floor ((dailyBudget tr m : ℚ) * (0.3 : ℚ)) +
      2 * Int.floor ((dailyBudget tr m : ℚ) * (0.2 : ℚ)) ∧
    dayCostSum d ≤ dailyBudget tr m := by
  simp only [generateDays] at hd
  obtain ⟨i, hi, rfl⟩ := List.mem_map.mp hd
  constructor
  · simp [dayCostSum]
    ring
  · simp only [dayCostSum, List.map, List.sum_cons, List.sum_nil, add_zero]
    have h3 := Int.floor_le ((dailyBudget tr m : ℚ) * (0.3 : ℚ))
    have h2 := Int.floor_le ((dailyBudget tr m : ℚ) * (0.2 : ℚ))
    have hq : ((Int.floor ((dailyBudget tr m : ℚ) * (0.3 : ℚ)) +
        (Int.floor ((dailyBudget tr m : ℚ) * (0.2 : ℚ)) +
        (Int.floor ((dailyBudget tr m : ℚ) * (0.3 : ℚ)) +
        Int.floor ((dailyBudget tr m : ℚ) * (0.2 : ℚ)))) : Int) : ℚ) ≤
        ((dailyBudget tr m : Int) : ℚ) := by
      push_cast
      linarith
    exact_mod_cast hq

/-- C6 witness: the amended cost-sum theorem applied to the single day the
mock generator builds for the one-day budget-10 request. -/
theorem c6_witness :
    dayCostSum dZero =
      2 * Int.floor ((dailyBudget oneDayRequest (0.7 : ℚ) : ℚ) * (0.3 : ℚ)) +
      2 * Int.floor ((dailyBudget oneDayRequest (0.7 : ℚ) : ℚ) * (0.2 : ℚ)) ∧
    dayCostSum dZero ≤ dailyBudget oneDayRequest (0.7 : ℚ) := by
  have hlist : generateDays oneDayRequest (0.7 : ℚ) "budget-friendly" = [dZero] := by
    norm_num [generateDays, dZero, oneDayRequest, tripDays, dateToMs, msPerDay,
      budgetPerDay, dailyBudget, theme0, theme1, themes, List.range_succ]
    decide
  exact c6_amended_cost_sum oneDayRequest (0.7 : ℚ) "budget-friendly" dZero
    (by rw [hlist]; exact List.mem_singleton.mpr rfl)

/-- C7: when trip-request validation fails, the trip-creation POST handler
responds with status 400 carrying the validator field-level error details,
and the server state is returned unchanged: no trip entry is created and no
itinerary is generated (the handler never invokes generation). -/
theorem c7_validation_failure_rejects (st : ServerState) (errs : List FieldError)
    (freshId now : String) :
    tripsPOST st (ValidationResult.failed errs) freshId now =
      (TripsPostResponse.invalid 400 "Invalid request data" errs, st) := rfl

/-- C8: a stored itinerary is never mutated after creation. First, a GET for
a pair whose itinerary is cached returns the cached object unchanged, leaves
the state unchanged and does not invoke generation. Second, a GET never
changes any existing cache entry. Third, the force-regeneration POST is
exactly deletion of the entry followed by the GET handler, which generates a
fresh one. -/
theorem c8_cached_entry_immutable (st : ServerState) (tid ty now : String)
    (gen : TripRequest → String → GenerationResult) :
    (∀ v, st.mockItineraries (tid ++ "_" ++ ty) = some v →
       tid ≠ "" → ty ≠ "" → validTypes.contains (toLowerStr ty) = true →
       itineraryGET st tid ty gen now =
         { response := ItinResponse.ok v, state := st, generationInvoked := false }) ∧
    (∀ k w, st.mockItineraries k = some w →
       ((itineraryGET st tid ty gen now).state).mockItineraries k = some w) ∧
    (itineraryPOST st tid ty gen now =
       itineraryGET
         { st with mockItineraries := mapDelete st.mockItineraries (tid ++ "_" ++ ty) }
         tid ty gen now) := by
  refine ⟨?_, ?_, rfl⟩
  · intro v hv h1 h2 h3
    have hmem : toLowerStr ty ∈ validTypes := by simpa using h3
    simp [itineraryGET, h1, h2, hmem, hv]
  · intro k w hw
    by_cases hc1 : tid = "" ∨ ty = ""
    · simpa [itineraryGET, hc1] using hw
    · by_cases hc2 : validTypes.contains (toLowerStr ty) = false
      · have hnmem : toLowerStr ty ∉ validTypes := by simpa using hc2
        simpa [itineraryGET, hc1, hnmem] using hw
      · have hc2t : validTypes.contains (toLowerStr ty) = true := by
          cases hcc : validTypes.contains (toLowerStr ty)
          · exact absurd hcc hc2
          · rfl
        have hmem : toLowerStr ty ∈ validTypes := by simpa using hc2t
        cases hm : st.mockItineraries (tid ++ "_" ++ ty) with
        | some existing => simpa [itineraryGET, hc1, hmem, hm] using hw
        | none =>
          cases htrip : st.mockTrips tid with
          | none => simpa [itineraryGET, hc1, hmem, hm, htrip] using hw
          | some trip =>
            by_cases hs : (gen trip.tripRequest ty).success = false
            · simpa [itineraryGET, hc1, hmem, hm, htrip, hs] using hw
            · simp [itineraryGET, hc1, hmem, hm, htrip, hs, mapSet]
              have hk : ¬(k = tid ++ "_" ++ ty) := by
                intro he
                rw [he, hm] at hw
                exact Option.noConfusion hw
              rw [if_neg hk]
              exact hw

/-- C8 witness: the cached-hit and preservation parts of the immutability
theorem applied to a concrete state in which the t1 budget itinerary is
already cached. -/
theorem c8_witness :
    (itineraryGET cachedState "t1" "budget" demoGen "n3" =
      { response := ItinResponse.ok demoBody, state := cachedState, generationInvoked := false }) ∧
    (itineraryGET cachedState "t1" "budget" demoGen "n3").state.mockItineraries "t1_budget"
      = some demoBody := by
  constructor
  · exact (c8_cached_entry_immutable cachedState "t1" "budget" "n3" demoGen).1 demoBody
      rfl (by decide) (by decide) (by decide)
  · exact (c8_cached_entry_immutable cachedState "t1" "budget" "n3" demoGen).2.1
      "t1_budget" demoBody rfl

/-- C9: type validation is case insensitive but the cache key uses the raw
string: on a state holding one trip and an empty cache, a GET for budget
followed by a GET for Budget each invoke generation, and afterwards the
cache holds two distinct entries under the two distinct raw keys. -/
theorem c9_case_sensitive_cache :
    caseRun1.generationInvoked = true ∧ caseRun2.generationInvoked = true ∧
    ("t1" ++ "_" ++ "budget") ≠ ("t1" ++ "_" ++ "Budget") ∧
    (caseRun2.state.mockItineraries ("t1" ++ "_" ++ "budget")).isSome = true ∧
    (caseRun2.state.mockItineraries ("t1" ++ "_" ++ "Budget")).isSome = true := by
  decide

/-- C10: for every TripRequest with end_date at or after start_date the day
count is at least 1 (so the per-day budget division has a non-zero divisor),
the generated days list is non-empty, its day indices are exactly 1 through
n in order, and the date of the day at index k is start_date plus k. -/
theorem c10_day_indices (tr : TripRequest) (m : ℚ) (style : String)
    (h : tr.start_date ≤ tr.end_date) :
    1 ≤ tripDays tr ∧ tripDays tr ≠ 0 ∧
    generateDays tr m style ≠ [] ∧
    (generateDays tr m style).map Day.day =
      (List.range (tripDays tr).toNat).map (fun i => i + 1) ∧
    (generateDays tr m style).map Day.date =
      (List.range (tripDays tr).toNat).map (fun (i : Nat) => tr.start_date + (i : Int)) := by
  have h1 : 1 ≤ tripDays tr := by rw [tripDays_eq]; omega
  refine ⟨h1, by omega, ?_, ?_, ?_⟩
  · intro hnil
    have hlen := generateDays_length tr m style
    rw [hnil] at hlen
    simp at hlen
    omega
  · simp only [generateDays, List.map_map]
    rfl
  · simp only [generateDays, List.map_map]
    rfl

/-- C10 witness: the day-indexing theorem applied to the NYC to Paris
request with the budget multiplier. -/
theorem c10_witness :
    nycParisRequest.start_date ≤ nycParisRequest.end_date ∧
    (1 ≤ tripDays nycParisRequest ∧ tripDays nycParisRequest ≠ 0 ∧
     generateDays nycParisRequest (0.7 : ℚ) "budget-friendly" ≠ [] ∧
     (generateDays nycParisRequest (0.7 : ℚ) "budget-friendly").map Day.day =
       (List.range (tripDays nycParisRequest).toNat).map (fun i => i + 1) ∧
     (generateDays nycParisRequest (0.7 : ℚ) "budget-friendly").map Day.date =
       (List.range (tripDays nycParisRequest).toNat).map
         (fun (i : Nat) => nycParisRequest.start_date + (i : Int))) :=
  ⟨by decide, c10_day_indices nycParisRequest (0.7 : ℚ) "budget-friendly" (by decide)⟩

end TripPlanner
